import Mathlib

/-!
Verification of the Cover-Letter-Agent repository (src/utils.py, src/gui.py,
src/agent.py) against its natural-language specification.

The Python program is shallowly embedded: the filesystem and the process
environment are functions `String → Option String`, Tk string variables are
plain strings, and each Python function becomes a Lean function over these.
the Python truthiness test `if s:` on an (optional) string is `pyTruthy`;
the Python method `str.strip()` is modelled by `pyStrip`.

Two pieces of external-library behaviour are load-bearing and are embedded
faithfully:
* `numpy.savetxt` with a one-string row list and the `%s` format writes the
  row followed by the newline terminator, so the file content is
  `text ++ "\n"`, not `text` (modelled by `np_savetxt_content`);
* a Tk `Text` widget always holds an automatic final newline after the
  user-visible text, and `widget.get("1.0", tk.END)` returns the full
  content including that newline (modelled by `textGet`).
-/

/-- The whitespace characters removed by the Python method `str.strip()`
(the ASCII ones; the strings this program strips are form input delimited
by ASCII whitespace). -/
def pyIsSpace (c : Char) : Bool :=
  c = ' ' ∨ c = '\t' ∨ c = '\n' ∨ c = '\r' ∨ c = '\x0b' ∨ c = '\x0c'

/-- Python `str.strip()`: drop leading and trailing whitespace. -/
def pyStrip (s : String) : String :=
  ⟨((s.data.dropWhile pyIsSpace).reverse.dropWhile pyIsSpace).reverse⟩

/-- Python `str.lower()` (ASCII case folding; only compared against the
all-ASCII suffix `".pdf"` in this program). -/
def pyLower (s : String) : String := ⟨s.data.map Char.toLower⟩

/-- Python `str.endswith(suffix)`. -/
def pyEndsWith (s suffix : String) : Bool := suffix.data.isSuffixOf s.data

/-- Python `str.startswith(p)`. -/
def pyStartsWith (s p : String) : Bool := p.data.isPrefixOf s.data

/-- The filesystem: maps a path to the content of the file there, if any. -/
def FileSys : Type := String → Option String

/-- Write `content` at `path`, overwriting whatever was there. -/
def fsWrite (fs : FileSys) (path content : String) : FileSys :=
  fun p => if p = path then some content else fs p

/-- An empty filesystem. -/
def fsEmpty : FileSys := fun _ => none

/-- Python truthiness of an optional string: `None` and `""` are falsy. -/
def pyTruthy : Option String → Bool
  | none => false
  | some s => s ≠ ""

/-- The `app_data` working directory created next to the sources: gui.py
line 71 and utils.py lines 25-28 both resolve two levels up from the module
file and append `app_data`, so they name the same directory, represented
here by this relative path. -/
def app_data_dir : String := "app_data"

/-- gui.py line 73: the fixed path of the persisted personal description. -/
def saved_description_path : String := "app_data/saved_description.txt"

/-- utils.py line 32: the fixed output path of `pdf_to_txt`. -/
def resume_txt_path : String := "app_data/resume.txt"

/-- utils.py line 69: the output path of `str_to_txt` for a given `file_name`. -/
def strToTxtPath (file_name : String) : String :=
  "app_data/" ++ file_name ++ ".txt"

/-- Content written by `np.savetxt` for the one-row list `[text]` with the
`%s` format: numpy writes the single row `text` followed by its newline row
terminator. -/
def np_savetxt_content (text : String) : String := text ++ "\n"

/-- A PDF document as `PyPDF2.PdfReader` exposes it to this program: the
extracted text of each page, in order (`reader.pages[i].extract_text()`). -/
structure PDF where
  pages : List String

/-- utils.py `pdf_to_txt`: extract the text of page 0 only and save it via
`np.savetxt` to the fixed path `app_data/resume.txt`, returning that path.
`reader.pages[0]` raises on a PDF with no pages; the error propagates
uncaught to the caller, modelled by `none`. -/
def pdf_to_txt (fs : FileSys) (pdf : PDF) : Option (FileSys × String) :=
  match pdf.pages.head? with
  | none => none
  | some page0 =>
      some (fsWrite fs resume_txt_path (np_savetxt_content page0), resume_txt_path)

/-- utils.py `str_to_txt`: save `text` via `np.savetxt` to
`app_data/<file_name>.txt` and return that path. -/
def str_to_txt (fs : FileSys) (text file_name : String) : FileSys × String :=
  (fsWrite fs (strToTxtPath file_name) (np_savetxt_content text),
   strToTxtPath file_name)

/-- What `widget.get("1.0", tk.END)` returns for a Tk `Text` widget whose
user-visible text is `s`: the widget buffer always ends in an automatic
newline, and the range `"1.0" .. END` includes it. -/
def textGet (s : String) : String := s ++ "\n"

/-- The state of the `CoverLetterGenerator` form.  Entry widgets backed by
`tk.StringVar` hold their string exactly; for the three `ScrolledText`
widgets the field holds the user-visible text (their `get("1.0", END)` is
`textGet` of the field).  `clipboard` is the system clipboard. -/
structure FormState where
  resume_path : String
  job_url : String
  job_description : String
  personal_description : String
  openai_key : String
  openai_model : String
  save_description : Bool
  output : String
  output_enabled : Bool
  status : String
  clipboard : String
deriving Repr, DecidableEq

/-- gui.py `validate_inputs`: the validation chain, returning
`(is_valid, error_message)`.  `ex` is the `os.path.exists` oracle. -/
def validate_inputs (ex : String → Bool) (st : FormState) : Bool × String :=
  if pyStrip st.resume_path = "" then
    (false, "Please select a resume file (mandatory field)")
  else if ex st.resume_path = false then
    (false, "Resume file does not exist")
  else if pyEndsWith (pyLower st.resume_path) ".pdf" = false then
    (false, "Resume file must be in PDF format")
  else
    let job_url := pyStrip st.job_url
    let job_description := pyStrip (textGet st.job_description)
    if job_url = "" ∧ job_description = "" then
      (false, "Please provide either a job posting URL or paste a job description")
    else if job_url ≠ "" ∧
        ¬(pyStartsWith job_url "http://" ∨ pyStartsWith job_url "https://") then
      (false, "Job URL must start with http:// or https://")
    else
      let personal_description := pyStrip (textGet st.personal_description)
      if personal_description = "" then
        (false, "Please enter a personal description (mandatory field)")
      else if personal_description.length < 20 then
        (false, "Personal description is too short (minimum 20 characters)")
      else
        (true, "")

/-- The process environment (`os.environ`): variable name to value. -/
def EnvMap : Type := String → Option String

/-- Assignment `os.environ[k] = v`. -/
def envSet (env : EnvMap) (k v : String) : EnvMap :=
  fun x => if x = k then some v else env x

/-- The execution backend selected in `CoverLetterAgent.__init__`:
`hosted` models `llm = None` (the orchestration library then uses the
hosted OpenAI backend configured through the environment), `localLLM`
models `llm = LLM(model=..., base_url=...)`. -/
inductive Backend where
  | hosted : Backend
  | localLLM (model : String) (base_url : String) : Backend
deriving Repr, DecidableEq

/-- agent.py `CoverLetterAgent.__init__`, lines 53-67: backend selection and
environment installation.  With a truthy `open_ai_key` the key is written to
`OPENAI_API_KEY` and the model name (or the default `gpt-4.1-nano`) to
`OPENAI_MODEL_NAME`, and `llm` stays `None` (hosted); otherwise the
environment is untouched and a local Ollama model is used.  Returns the
environment after construction and the selected backend. -/
def agent_init (env : EnvMap) (open_ai_key open_ai_model : Option String) :
    EnvMap × Backend :=
  if pyTruthy open_ai_key then
    let env1 := envSet env "OPENAI_API_KEY" (open_ai_key.getD "")
    let env2 := envSet env1 "OPENAI_MODEL_NAME"
      (if pyTruthy open_ai_model then open_ai_model.getD "" else "gpt-4.1-nano")
    (env2, Backend.hosted)
  else
    (env, Backend.localLLM "ollama/qwen3:latest" "http://localhost:11434")

/-- agent.py `CoverLetterAgent.kickoff`, lines 242-252: the runtime-inputs
map handed to `cover_letter_crew.kickoff`.  The `job_posting_url` key is
included exactly when the argument is truthy; `personal_writeup` always. -/
def kickoff_inputs (personal_writeup : String) (job_posting_url : Option String) :
    List (String × String) :=
  if pyTruthy job_posting_url then
    [("job_posting_url", job_posting_url.getD ""),
     ("personal_writeup", personal_writeup)]
  else
    [("personal_writeup", personal_writeup)]

/-- The complete orchestration call as the GUI performs it: construct the
agent (which may install environment variables) and then kick off the crew.
The environment is returned as it stands after the whole call: nothing in
`kickoff` (agent.py lines 226-254) reads or writes `os.environ`, so the
variables installed by `agent_init` are still set when the call returns. -/
def run_agent (env : EnvMap) (open_ai_key open_ai_model : Option String)
    (personal_writeup : String) (job_posting_url : Option String) :
    EnvMap × Backend × List (String × String) :=
  let (env1, backend) := agent_init env open_ai_key open_ai_model
  (env1, backend, kickoff_inputs personal_writeup job_posting_url)

/-- Outcome of the generate action (gui.py `generate_cover_letter`):
either validation failed and `show_error(msg)` was the only observable act,
or a downstream library error was caught by the `try/except` (modelled here
only for the `reader.pages[0]` failure on a page-less PDF), or the request
succeeded and the crew was kicked off with the given runtime inputs. -/
inductive GenResult where
  | validationError (msg : String)
  | extractionError
  | success (inputs : List (String × String))
deriving Repr, DecidableEq

/-- gui.py `process_cover_letter_request`, lines 355-405, inlined into the
surrounding `generate_cover_letter`, lines 301-353: validate; on failure
show the message and stop; on success optionally persist the writeup, run
`pdf_to_txt`, write the pasted job description via `str_to_txt` only when
no URL was given, and call `kickoff` (with `job_posting_url` exactly when a
URL was given).  The second component lists every file write performed, as
`(path, content)` pairs in program order. -/
def generate_cover_letter (ex : String → Bool) (pdf : PDF) (st : FormState) :
    GenResult × List (String × String) :=
  match validate_inputs ex st with
  | (false, msg) => (GenResult.validationError msg, [])
  | (true, _) =>
      let saveWrites :=
        if st.save_description then
          [(saved_description_path, textGet st.personal_description)]
        else []
      let job_url := pyStrip st.job_url
      let job_description := pyStrip (textGet st.job_description)
      let personal_description := pyStrip (textGet st.personal_description)
      match pdf.pages.head? with
      | none => (GenResult.extractionError, saveWrites)
      | some page0 =>
          let writes1 := saveWrites ++ [(resume_txt_path, np_savetxt_content page0)]
          if job_url ≠ "" then
            (GenResult.success (kickoff_inputs personal_description (some job_url)),
             writes1)
          else
            (GenResult.success (kickoff_inputs personal_description none),
             writes1 ++ [(strToTxtPath "job_description",
                          np_savetxt_content job_description)])

/-- gui.py `save_description_to_file`, lines 235-252: when the checkbox is
checked, write `description_text.get("1.0", END)` to the fixed path. -/
def save_description_to_file (st : FormState) (fs : FileSys) : FileSys :=
  if st.save_description then
    fsWrite fs saved_description_path (textGet st.personal_description)
  else fs

/-- gui.py `load_saved_description`, lines 213-233: if the saved file
exists, read it, clear the description widget, insert the file content, and
check the save checkbox; otherwise do nothing. -/
def load_saved_description (st : FormState) (fs : FileSys) : FormState :=
  match fs saved_description_path with
  | some saved_text =>
      { st with personal_description := saved_text, save_description := true }
  | none => st

/-- gui.py `clear_form`, lines 407-424: reset the resume path, job URL, job
description, personal description and the output area (re-disabled), and
set the status.  The OpenAI key, model and save checkbox are not touched. -/
def clear_form (st : FormState) : FormState :=
  { st with
    resume_path := ""
    job_url := ""
    job_description := ""
    personal_description := ""
    output := ""
    output_enabled := false
    status := "Form cleared" }

/-- Model of `root.clipboard_clear()`. -/
def clipboard_clear (_c : String) : String := ""

/-- Model of `root.clipboard_append(s)`. -/
def clipboard_append (c s : String) : String := c ++ s

/-- gui.py `copy_to_clipboard`, lines 426-442: read the output area; if the
content is non-blank, clear the clipboard and append the content; otherwise
report that there is nothing to copy. -/
def copy_to_clipboard (st : FormState) : FormState :=
  let content := textGet st.output
  if pyStrip content ≠ "" then
    { st with
      clipboard := clipboard_append (clipboard_clear st.clipboard) content
      status := "Cover letter copied to clipboard" }
  else
    { st with status := "Nothing to copy" }

/-- An existence oracle for the concrete runs below: exactly one file, the
resume PDF, exists. -/
def exFull : String → Bool := fun p => p = "/home/user/resume.pdf"

/-- A fully filled form in which both the job URL and the pasted job
description are non-empty and every other validation rule passes. -/
def stFull : FormState :=
  { resume_path := "/home/user/resume.pdf"
    job_url := "https://example.com/job"
    job_description := "A pasted job description"
    personal_description := "I am a software engineer with ten years of experience."
    openai_key := ""
    openai_model := "gpt-4.1-nano"
    save_description := false
    output := ""
    output_enabled := false
    status := "Ready"
    clipboard := "" }

/-- A one-page resume PDF with known extractable text. -/
def pdfOne : PDF := ⟨["John Doe  Senior Engineer  Experience: 10 years"]⟩

/-- Like `stFull` but with both job inputs empty. -/
def stEmptyJob : FormState := { stFull with job_url := "", job_description := "" }

/-- Like `stFull` but with an empty resume path. -/
def stNoResume : FormState := { stFull with resume_path := "" }

/-- A one-page PDF whose first page has extractable text `"hello"`. -/
def pdfHello : PDF := ⟨["hello"]⟩

/-- A form with writeup `"abc"` and the save checkbox checked. -/
def stSaveAbc : FormState := { stFull with personal_description := "abc", save_description := true }

/-- A form holding OpenAI credentials and a checked save checkbox. -/
def stCreds : FormState :=
  { stFull with openai_key := "sk-test", openai_model := "gpt-4-turbo", save_description := true }

/-- A form with a generated letter in the result area and stale clipboard
content. -/
def stOut : FormState :=
  { stFull with output := "Dear Hiring Manager, I am excited to apply.", clipboard := "old" }

/-- An empty process environment. -/
def envEmpty : EnvMap := fun _ => none

/-- If both job inputs are blank after stripping, validation never returns
true (it fails either on the resume or on the job-input rule). -/
theorem validate_inputs_job_both_empty (ex : String → Bool) (st : FormState)
    (hu : pyStrip st.job_url = "") (hd : pyStrip (textGet st.job_description) = "") :
    (validate_inputs ex st).1 = false := by
  unfold validate_inputs
  split_ifs <;> simp_all

/-- A non-empty job URL without an HTTP(S) scheme makes validation fail. -/
theorem validate_inputs_url_bad_scheme (ex : String → Bool) (st : FormState)
    (hu : pyStrip st.job_url ≠ "")
    (h1 : pyStartsWith (pyStrip st.job_url) "http://" = false)
    (h2 : pyStartsWith (pyStrip st.job_url) "https://" = false) :
    (validate_inputs ex st).1 = false := by
  unfold validate_inputs
  split_ifs <;> simp_all

/-- Whenever validation succeeds, at least one job input is non-blank and a
given job URL starts with an HTTP(S) scheme. -/
theorem validate_inputs_true_job_rules (ex : String → Bool) (st : FormState)
    (h : (validate_inputs ex st).1 = true) :
    (pyStrip st.job_url ≠ "" ∨ pyStrip (textGet st.job_description) ≠ "") ∧
      (pyStrip st.job_url ≠ "" →
        (pyStartsWith (pyStrip st.job_url) "http://" = true ∨
         pyStartsWith (pyStrip st.job_url) "https://" = true)) := by
  simp only [validate_inputs] at h
  split_ifs at h <;> simp_all
  all_goals
    rcases Bool.eq_false_or_eq_true (pyStartsWith (pyStrip st.job_url) "http://") with
      hb | hb <;> simp_all <;> tauto

/-- With an invalid resume path, validation fails with the first violated
resume rule in source order: blank path, then nonexistence, then the
`.pdf` suffix. -/
theorem validate_inputs_resume_invalid (ex : String → Bool) (st : FormState)
    (h : pyStrip st.resume_path = "" ∨ ex st.resume_path = false ∨
         pyEndsWith (pyLower st.resume_path) ".pdf" = false) :
    validate_inputs ex st =
      (false,
       if pyStrip st.resume_path = "" then "Please select a resume file (mandatory field)"
       else if ex st.resume_path = false then "Resume file does not exist"
       else "Resume file must be in PDF format") := by
  unfold validate_inputs
  split_ifs <;> simp_all

/-- With a valid resume and both job inputs blank, validation fails with
the either-URL-or-description message. -/
theorem validate_inputs_both_empty_msg (ex : String → Bool) (st : FormState)
    (hr1 : pyStrip st.resume_path ≠ "") (hr2 : ex st.resume_path = true)
    (hr3 : pyEndsWith (pyLower st.resume_path) ".pdf" = true)
    (hu : pyStrip st.job_url = "") (hd : pyStrip (textGet st.job_description) = "") :
    validate_inputs ex st =
      (false, "Please provide either a job posting URL or paste a job description") := by
  unfold validate_inputs
  split_ifs <;> simp_all

/-- Stripping yields the empty string exactly when every character is
whitespace. -/
theorem pyStrip_eq_empty_iff (s : String) :
    pyStrip s = "" ↔ ∀ c ∈ s.data, pyIsSpace c := by
  unfold pyStrip
  rw [show ("" : String) = ⟨[]⟩ from rfl]
  constructor
  · intro h c hc
    have hnil : ((s.data.dropWhile pyIsSpace).reverse.dropWhile pyIsSpace).reverse = [] := by
      simpa using congrArg String.data h
    rw [List.reverse_eq_nil_iff, List.dropWhile_eq_nil_iff] at hnil
    rw [← List.takeWhile_append_dropWhile (p := pyIsSpace) (l := s.data),
      List.mem_append] at hc
    rcases hc with hc | hc
    · exact List.mem_takeWhile_imp hc
    · exact hnil c (List.mem_reverse.mpr hc)
  · intro h
    have h1 : s.data.dropWhile pyIsSpace = [] :=
      List.dropWhile_eq_nil_iff.mpr fun c hc => h c hc
    simp [h1]

/-- The widget content (text plus terminal newline) strips to empty exactly
when the visible text does: the area is blank in one sense iff in the
other. -/
theorem pyStrip_textGet_empty_iff (s : String) :
    pyStrip (textGet s) = "" ↔ pyStrip s = "" := by
  rw [pyStrip_eq_empty_iff, pyStrip_eq_empty_iff]
  constructor
  · intro h c hc
    exact h c (by simp [textGet, hc])
  · intro h c hc
    simp only [textGet] at hc
    rw [show (s ++ "\n").data = s.data ++ ['\n'] by simp [String.data_append]] at hc
    rcases List.mem_append.mp hc with hc | hc
    · exact h c hc
    · simp at hc
      subst hc
      decide

/-- The runtime-inputs map of `kickoff` always carries `personal_writeup`,
and carries `job_posting_url` exactly when the URL argument is truthy. -/
theorem kickoff_inputs_keys (p : String) (u : Option String) :
    ("personal_writeup", p) ∈ kickoff_inputs p u ∧
      ((∃ v, ("job_posting_url", v) ∈ kickoff_inputs p u) ↔ pyTruthy u = true) := by
  rcases u with _ | s
  · simp [kickoff_inputs, pyTruthy]
  · by_cases hs : s = "" <;> simp [kickoff_inputs, pyTruthy, hs]

/-- C1 counterexample: on `stFull` both the job URL and the pasted job
description are non-empty after stripping, yet `validate_inputs` accepts
the request, refuting the claim that every input set with both non-empty
fails validation. -/
theorem C1_counterexample :
    pyStrip stFull.job_url ≠ "" ∧ pyStrip stFull.job_description ≠ "" ∧
    validate_inputs exFull stFull = (true, "") := by decide

/-- C1 (amended): validation requires at least one (not exactly one) of job
URL and job description to be non-empty after trimming.  If both are empty
it fails, with the corresponding message whenever the resume rules pass;
if a job URL is given without an http:// or https:// scheme it fails; and
any accepted request has at least one job input non-blank and a valid
scheme on any given URL.  Both inputs non-empty is not rejected (see
`C1_counterexample`): the URL path simply takes precedence. -/
theorem C1_job_input_validation (ex : String → Bool) (st : FormState) :
    ((pyStrip st.job_url = "" ∧ pyStrip st.job_description = "") →
      (validate_inputs ex st).1 = false) ∧
    ((pyStrip st.job_url ≠ "" ∧
      pyStartsWith (pyStrip st.job_url) "http://" = false ∧
      pyStartsWith (pyStrip st.job_url) "https://" = false) →
      (validate_inputs ex st).1 = false) ∧
    (pyStrip st.resume_path ≠ "" → ex st.resume_path = true →
      pyEndsWith (pyLower st.resume_path) ".pdf" = true →
      pyStrip st.job_url = "" → pyStrip st.job_description = "" →
      validate_inputs ex st =
        (false, "Please provide either a job posting URL or paste a job description")) ∧
    ((validate_inputs ex st).1 = true →
      (pyStrip st.job_url ≠ "" ∨ pyStrip st.job_description ≠ "") ∧
      (pyStrip st.job_url ≠ "" →
        (pyStartsWith (pyStrip st.job_url) "http://" = true ∨
         pyStartsWith (pyStrip st.job_url) "https://" = true))) := by
  have hiff := pyStrip_textGet_empty_iff st.job_description
  refine ⟨fun ⟨h1, h2⟩ => ?_, fun ⟨h1, h2, h3⟩ => ?_, fun h1 h2 h3 h4 h5 => ?_, fun h => ?_⟩
  · exact validate_inputs_job_both_empty ex st h1 (hiff.mpr h2)
  · exact validate_inputs_url_bad_scheme ex st h1 h2 h3
  · exact validate_inputs_both_empty_msg ex st h1 h2 h3 h4 (hiff.mpr h5)
  · have hres := validate_inputs_true_job_rules ex st h
    exact ⟨hres.1.imp id (fun hd hc => hd (hiff.mpr hc)), hres.2⟩

/-- C1 witness: on a concrete valid-resume form with both job inputs empty,
the amended theorem yields the both-empty failure message. -/
theorem C1_job_input_validation_witness :
    validate_inputs exFull stEmptyJob =
      (false, "Please provide either a job posting URL or paste a job description") :=
  (C1_job_input_validation exFull stEmptyJob).2.2.1 (by decide) (by decide) (by decide)
    (by decide) (by decide)

/-- C2: when validation passes, the stripped job URL is non-empty, the
pasted description is non-empty too and the PDF has a first page, the
generate action takes the URL path: no file is ever written at the
job-description artifact path, the crew is kicked off with the runtime
inputs built from the URL, that map contains the `job_posting_url` key
bound to the URL and `personal_writeup` bound to the stripped writeup, and
in general the map contains `personal_writeup` always and `job_posting_url`
exactly when a truthy URL was given. -/
theorem C2_url_path (ex : String → Bool) (pdf : PDF) (st : FormState)
    (hv : (validate_inputs ex st).1 = true)
    (hurl : pyStrip st.job_url ≠ "")
    (hdesc : pyStrip st.job_description ≠ "")
    (hp : pdf.pages ≠ []) :
    (∀ c, (strToTxtPath "job_description", c) ∉ (generate_cover_letter ex pdf st).2) ∧
    (generate_cover_letter ex pdf st).1 =
      GenResult.success
        (kickoff_inputs (pyStrip (textGet st.personal_description))
          (some (pyStrip st.job_url))) ∧
    ("job_posting_url", pyStrip st.job_url) ∈
      kickoff_inputs (pyStrip (textGet st.personal_description)) (some (pyStrip st.job_url)) ∧
    (∀ p u, ("personal_writeup", p) ∈ kickoff_inputs p u ∧
      ((∃ v, ("job_posting_url", v) ∈ kickoff_inputs p u) ↔ pyTruthy u = true)) := by
  obtain ⟨m, hm⟩ : ∃ m, validate_inputs ex st = (true, m) := by
    rcases hval : validate_inputs ex st with ⟨b, m⟩
    rw [hval] at hv
    exact ⟨m, by simp_all⟩
  rcases pdf with ⟨pages⟩
  rcases pages with _ | ⟨page0, rest⟩
  · exact absurd rfl hp
  refine ⟨?_, ?_, ?_, kickoff_inputs_keys⟩
  · intro c
    simp only [generate_cover_letter, hm, List.head?, if_pos hurl]
    by_cases hs : st.save_description <;>
      simp [hs, saved_description_path, strToTxtPath, resume_txt_path]
  · simp only [generate_cover_letter, hm, List.head?, if_pos hurl]
  · simp [kickoff_inputs, pyTruthy, hurl]

/-- C2 witness: on the concrete form `stFull` (both job inputs filled) the
generate action kicks off the crew with the URL-keyed runtime inputs. -/
theorem C2_url_path_witness :
    (generate_cover_letter exFull pdfOne stFull).1 =
      GenResult.success
        (kickoff_inputs (pyStrip (textGet stFull.personal_description))
          (some (pyStrip stFull.job_url))) :=
  (C2_url_path exFull pdfOne stFull (by decide) (by decide) (by decide) (by decide)).2.1

/-- C3: for every resume path that is blank, nonexistent or not ending in
`.pdf` (case-insensitively, as the code lowers the path), the generate
action stops at validation: the outcome is exactly the error dialog
carrying the first violated resume rule in source order, the file-write
trace is empty (no writeup persisted, no text extracted to
`app_data/resume.txt`, no job-description artifact) and the result is not
`GenResult.success`, so the crew kickoff is never invoked. -/
theorem C3_resume_gate (ex : String → Bool) (pdf : PDF) (st : FormState)
    (h : pyStrip st.resume_path = "" ∨ ex st.resume_path = false ∨
         pyEndsWith (pyLower st.resume_path) ".pdf" = false) :
    generate_cover_letter ex pdf st =
      (GenResult.validationError
        (if pyStrip st.resume_path = "" then "Please select a resume file (mandatory field)"
         else if ex st.resume_path = false then "Resume file does not exist"
         else "Resume file must be in PDF format"), []) := by
  have hval := validate_inputs_resume_invalid ex st h
  simp only [generate_cover_letter, hval]

/-- C3 witness: on the concrete form with an empty resume path the generate
action surfaces the select-a-resume message and performs no writes. -/
theorem C3_resume_gate_witness :
    pyStrip stNoResume.resume_path = "" ∧
    generate_cover_letter exFull pdfOne stNoResume =
      (GenResult.validationError "Please select a resume file (mandatory field)", []) :=
  ⟨by decide, by
    have h := C3_resume_gate exFull pdfOne stNoResume (Or.inl (by decide))
    exact h.trans (by decide)⟩

/-- C4 counterexample: extracting the one-page PDF with page text `"hello"`
produces a `app_data/resume.txt` whose content is `"hello\n"`, not the page
text `"hello"` itself, refuting the claim that the artifact content equals
the extractable text exactly. -/
theorem C4_counterexample :
    ((pdf_to_txt fsEmpty pdfHello).map fun r => r.1 resume_txt_path) = some (some "hello\n") ∧
    ((pdf_to_txt fsEmpty pdfHello).map fun r => r.1 resume_txt_path) ≠ some (some "hello") := by
  decide

/-- C4 (amended): for every PDF whose first page has extractable text `T`,
extraction writes the artifact at the fixed location `app_data/resume.txt`
with content `T` followed by the single trailing newline that `np.savetxt`
appends, and for a multi-page PDF all pages after the first are dropped
(the result does not depend on `rest`). -/
theorem C4_first_page_extraction (fs : FileSys) (T : String) (rest : List String) :
    pdf_to_txt fs ⟨T :: rest⟩ =
      some (fsWrite fs resume_txt_path (T ++ "\n"), resume_txt_path) ∧
    fsWrite fs resume_txt_path (T ++ "\n") resume_txt_path = some (T ++ "\n") := by
  exact ⟨rfl, by simp [fsWrite]⟩

/-- C5 counterexample: with writeup `"abc"` and the save checkbox checked,
saving and then reloading repopulates the description area with `"abc\n"`,
not `"abc"`: the save-then-load composition is not the identity on the
writeup text. -/
theorem C5_counterexample :
    (load_saved_description stSaveAbc
        (save_description_to_file stSaveAbc fsEmpty)).personal_description = "abc\n" ∧
    "abc\n" ≠ "abc" := by decide

/-- C5 (amended): persisting the writeup (save checkbox checked) and then
reloading the form repopulates the description text area with exactly the
previously saved file content and leaves the persist checkbox pre-checked;
but that saved content is the widget text with the Tk terminal newline
included, so the composition appends one newline to the writeup text per
save-load cycle rather than being the identity. -/
theorem C5_save_load (st : FormState) (fs : FileSys) (h : st.save_description = true) :
    (save_description_to_file st fs) saved_description_path =
      some (st.personal_description ++ "\n") ∧
    (load_saved_description st (save_description_to_file st fs)).personal_description =
      st.personal_description ++ "\n" ∧
    (load_saved_description st (save_description_to_file st fs)).save_description = true := by
  simp [save_description_to_file, load_saved_description, h, fsWrite, textGet]

/-- C5 witness: the amended theorem applied to the concrete form with
writeup `"abc"` and the save checkbox checked. -/
theorem C5_save_load_witness :
    stSaveAbc.save_description = true ∧
    ((save_description_to_file stSaveAbc fsEmpty) saved_description_path = some ("abc" ++ "\n") ∧
     (load_saved_description stSaveAbc
        (save_description_to_file stSaveAbc fsEmpty)).personal_description = "abc" ++ "\n" ∧
     (load_saved_description stSaveAbc
        (save_description_to_file stSaveAbc fsEmpty)).save_description = true) :=
  ⟨by decide, C5_save_load stSaveAbc fsEmpty (by decide)⟩

/-- C6 counterexample: on a form holding an API key, a model name and a
checked save checkbox, the clear action leaves all three untouched,
refuting the claim that clearing resets the API key, model name and save
checkbox to empty. -/
theorem C6_counterexample :
    (clear_form stCreds).openai_key = "sk-test" ∧
    (clear_form stCreds).openai_model = "gpt-4-turbo" ∧
    (clear_form stCreds).save_description = true := by decide

/-- C6 (amended): for every form state, the clear action resets the resume
path, job URL, job description and personal writeup to empty and resets the
result area to empty and disabled, but preserves the API key, the model
name and the save checkbox unchanged. -/
theorem C6_clear_form_resets (st : FormState) :
    (clear_form st).resume_path = "" ∧ (clear_form st).job_url = "" ∧
    (clear_form st).job_description = "" ∧ (clear_form st).personal_description = "" ∧
    (clear_form st).output = "" ∧ (clear_form st).output_enabled = false ∧
    (clear_form st).openai_key = st.openai_key ∧
    (clear_form st).openai_model = st.openai_model ∧
    (clear_form st).save_description = st.save_description := by
  simp [clear_form]

/-- C7: for every construction of the orchestration layer, a truthy API key
selects the hosted backend (`llm = None`, OpenAI via the environment) and,
when the model name is omitted or empty, installs the default model name
`gpt-4.1-nano`; without a key the locally hosted Ollama model backend is
selected instead. -/
theorem C7_backend_selection (env : EnvMap) (key model : Option String) :
    (pyTruthy key = true →
      (agent_init env key model).2 = Backend.hosted ∧
      (pyTruthy model = false →
        (agent_init env key model).1 "OPENAI_MODEL_NAME" = some "gpt-4.1-nano")) ∧
    (pyTruthy key = false →
      (agent_init env key model).2 =
        Backend.localLLM "ollama/qwen3:latest" "http://localhost:11434") := by
  refine ⟨fun hk => ⟨?_, fun hm => ?_⟩, fun hk => ?_⟩ <;> simp [agent_init, envSet, *]

/-- C7 witness: with the concrete key `"sk-test"` and no model name the
hosted backend is selected with default model `gpt-4.1-nano`; with no key
the local Ollama backend is selected. -/
theorem C7_backend_selection_witness :
    (agent_init envEmpty (some "sk-test") none).2 = Backend.hosted ∧
    (agent_init envEmpty (some "sk-test") none).1 "OPENAI_MODEL_NAME" = some "gpt-4.1-nano" ∧
    (agent_init envEmpty none none).2 =
      Backend.localLLM "ollama/qwen3:latest" "http://localhost:11434" :=
  ⟨((C7_backend_selection envEmpty (some "sk-test") none).1 (by decide)).1,
   ((C7_backend_selection envEmpty (some "sk-test") none).1 (by decide)).2 (by decide),
   (C7_backend_selection envEmpty none none).2 (by decide)⟩

/-- C8: constructing the orchestration layer with a truthy API key installs
the key as `OPENAI_API_KEY` and sets `OPENAI_MODEL_NAME` in the process
environment, and the environment returned after the complete agent
construction plus crew kickoff still equals the one produced at
construction: the assignment is process-wide, not scoped to the call and
never cleared (no operation of the embedded program deletes an environment
variable).  With a falsy key every environment variable is left
unchanged. -/
theorem C8_env_installation (env : EnvMap) (key model : Option String)
    (personal : String) (url : Option String) :
    (pyTruthy key = true →
      (run_agent env key model personal url).1 "OPENAI_API_KEY" = some (key.getD "") ∧
      ((run_agent env key model personal url).1 "OPENAI_MODEL_NAME").isSome = true ∧
      (run_agent env key model personal url).1 = (agent_init env key model).1) ∧
    (pyTruthy key = false →
      ∀ v, (run_agent env key model personal url).1 v = env v) := by
  constructor
  · intro hk
    refine ⟨?_, ?_, rfl⟩ <;> simp [run_agent, agent_init, envSet, hk]
  · intro hk
    intro v
    simp [run_agent, agent_init, hk]

/-- C8 witness: the concrete key `"sk-test"` is installed and visible after
the full call; with no key the environment stays empty. -/
theorem C8_env_installation_witness :
    (run_agent envEmpty (some "sk-test") none "writeup" none).1 "OPENAI_API_KEY" =
      some "sk-test" ∧
    (∀ v, (run_agent envEmpty none none "writeup" none).1 v = envEmpty v) :=
  ⟨((C8_env_installation envEmpty (some "sk-test") none "writeup" none).1 (by decide)).1,
   (C8_env_installation envEmpty none none "writeup" none).2 (by decide)⟩

/-- C9 counterexample: materializing the string `"hi"` under the name
`"notes"` writes `"hi\n"` to `app_data/notes.txt`, not the string `"hi"`
verbatim, refuting the byte-for-byte claim (one newline is added). -/
theorem C9_counterexample :
    (str_to_txt fsEmpty "hi" "notes").1 (strToTxtPath "notes") = some "hi\n" ∧
    some "hi\n" ≠ some ("hi" : String) ∧
    (str_to_txt fsEmpty "hi" "notes").2 = "app_data/notes.txt" := by decide

/-- C9 (amended): for every input string and file name, `str_to_txt` writes
the string with one trailing newline appended (the `np.savetxt` row
terminator; nothing else added or removed) to `app_data/<name>.txt`, and
returns that path. -/
theorem C9_str_to_txt_trailing_newline (fs : FileSys) (text file_name : String) :
    str_to_txt fs text file_name =
      (fsWrite fs ("app_data/" ++ file_name ++ ".txt") (text ++ "\n"),
       "app_data/" ++ file_name ++ ".txt") ∧
    (str_to_txt fs text file_name).1 ("app_data/" ++ file_name ++ ".txt") =
      some (text ++ "\n") := by
  refine ⟨rfl, ?_⟩
  simp [str_to_txt, fsWrite, strToTxtPath, np_savetxt_content]

/-- C10: when the result area text is whitespace-only (equivalently, the
widget content read by `get("1.0", END)` strips to empty), the copy action
leaves the clipboard unchanged and reports that there is nothing to copy;
when it is non-blank, the clipboard is first cleared and then appended the
full content read from the result area, so it ends up holding exactly that
content (the widget text together with its terminal newline). -/
theorem C10_copy_to_clipboard (st : FormState) :
    (pyStrip st.output = "" →
      (copy_to_clipboard st).clipboard = st.clipboard ∧
      (copy_to_clipboard st).status = "Nothing to copy") ∧
    (pyStrip st.output ≠ "" →
      (copy_to_clipboard st).clipboard =
        clipboard_append (clipboard_clear st.clipboard) (textGet st.output) ∧
      (copy_to_clipboard st).clipboard = textGet st.output ∧
      (copy_to_clipboard st).status = "Cover letter copied to clipboard") := by
  have hiff := pyStrip_textGet_empty_iff st.output
  constructor
  · intro h
    have hg : ¬ pyStrip (textGet st.output) ≠ "" := by simp [hiff, h]
    simp [copy_to_clipboard, hg]
  · intro h
    have hg : pyStrip (textGet st.output) ≠ "" := fun hc => h (hiff.mp hc)
    simp [copy_to_clipboard, hg, clipboard_append, clipboard_clear]

/-- C10 witness: on the form with an empty result area the clipboard is
unchanged and the status reports nothing to copy; on the form with a
generated letter the clipboard holds the area content. -/
theorem C10_copy_to_clipboard_witness :
    ((copy_to_clipboard stFull).clipboard = stFull.clipboard ∧
     (copy_to_clipboard stFull).status = "Nothing to copy") ∧
    ((copy_to_clipboard stOut).clipboard = textGet stOut.output) :=
  ⟨(C10_copy_to_clipboard stFull).1 (by decide),
   ((C10_copy_to_clipboard stOut).2 (by decide)).2.1⟩
